import Mathlib

/-!
# Verification of the imageupscaler processing pipeline

Shallow embedding of the processing utilities of the repository
(`utils.py` and the access gate of `app.py`) and proofs of the
claims of the specification about them.

Conventions of the embedding:

* A PIL image is modelled by `Img`: width, height, pixel mode and abstract
  pixel payload (`data : List Nat`).  Every pipeline stage produces a new
  `Img` value, matching the copy-on-transform behaviour of PIL.
* The Python floating point arithmetic in `resize_if_needed`
  (`ratio = (max_pixels / num_pixels) ** 0.5`, `int(width * ratio)`) is
  idealised as exact real arithmetic; `int` truncation on non-negative
  values is the floor.  Under that idealisation
  `int(w * sqrt(max / num)) = Nat.sqrt (w * w * max / num)` (with `/` the
  natural-number division); the bridge is proved in
  `natFloor_mul_real_sqrt_div`.
* External collaborators (PIL enhancement primitives, the Replicate
  client, the network) are parameters of the environment `Env`; fallible
  external calls return `Except String _`, a raised exception being the
  `error` case caught by the `try/except` blocks of the source.
-/

namespace ImageUpscaler

/-- PIL pixel modes that the code distinguishes (`RGB`, `RGBA`, `LA`),
plus the remaining modes the pipeline can encounter. -/
inductive Mode where
  | RGB
  | RGBA
  | LA
  | L
  | P
  deriving DecidableEq, Repr

/-- An in-memory raster: width, height, pixel mode and abstract pixel
payload. -/
structure Img where
  width : Nat
  height : Nat
  mode : Mode
  data : List Nat
  deriving DecidableEq, Repr

/-- `utils.resize_if_needed`, dimension part.  The source computes
`ratio = (max_pixels / num_pixels) ** 0.5` and the new dimensions
`int(width * ratio)`, `int(height * ratio)`.  Under exact real arithmetic
`int(d * sqrt(max_pixels / num_pixels)) = Nat.sqrt (d * d * max_pixels / num_pixels)`
(proved in `natFloor_mul_real_sqrt_div` and used in the claim theorems);
the image is returned unchanged when `num_pixels ≤ max_pixels`. -/
def resize_if_needed (width height max_pixels : Nat) : Nat × Nat :=
  if width * height > max_pixels then
    (Nat.sqrt (width * width * max_pixels / (width * height)),
     Nat.sqrt (height * height * max_pixels / (width * height)))
  else (width, height)

/-- For a non-negative real, the natural floor of its square root is the
natural square root of its natural floor. -/
theorem natFloor_real_sqrt (r : ℝ) (hr : 0 ≤ r) :
    ⌊Real.sqrt r⌋₊ = Nat.sqrt ⌊r⌋₊ := by
  rw [Nat.floor_eq_iff (Real.sqrt_nonneg r)]
  constructor
  · rw [Real.le_sqrt (by positivity) hr]
    calc ((Nat.sqrt ⌊r⌋₊ : ℝ)) ^ 2 = ((Nat.sqrt ⌊r⌋₊ * Nat.sqrt ⌊r⌋₊ : ℕ) : ℝ) := by
          push_cast; ring
    _ ≤ ((⌊r⌋₊ : ℕ) : ℝ) := by exact_mod_cast Nat.sqrt_le ⌊r⌋₊
    _ ≤ r := Nat.floor_le hr
  · rw [Real.sqrt_lt' (by positivity)]
    calc r < ⌊r⌋₊ + 1 := Nat.lt_floor_add_one r
    _ ≤ ((Nat.sqrt ⌊r⌋₊ + 1) * (Nat.sqrt ⌊r⌋₊ + 1) : ℕ) := by
          exact_mod_cast Nat.succ_le_succ_sqrt ⌊r⌋₊
    _ = ((Nat.sqrt ⌊r⌋₊ : ℝ) + 1) ^ 2 := by push_cast; ring

/-- Bridge between the real-arithmetic resize formula of the source and the
`Nat.sqrt` form used in the embedding:
`int(d * sqrt(maxp / num)) = Nat.sqrt (d * d * maxp / num)`. -/
theorem natFloor_mul_real_sqrt_div (d maxp num : Nat) (hnum : 0 < num) :
    ⌊(d : ℝ) * Real.sqrt ((maxp : ℝ) / (num : ℝ))⌋₊ =
      Nat.sqrt (d * d * maxp / num) := by
  have hnum' : (0 : ℝ) < (num : ℝ) := by exact_mod_cast hnum
  have hdiv : (0 : ℝ) ≤ (maxp : ℝ) / (num : ℝ) := by positivity
  have h1 : (d : ℝ) * Real.sqrt ((maxp : ℝ) / (num : ℝ)) =
      Real.sqrt ((d : ℝ) * (d : ℝ) * (maxp : ℝ) / (num : ℝ)) := by
    rw [show (d : ℝ) * (d : ℝ) * (maxp : ℝ) / (num : ℝ) =
        ((d : ℝ) * (d : ℝ)) * ((maxp : ℝ) / (num : ℝ)) by ring]
    rw [Real.sqrt_mul (by positivity), Real.sqrt_mul_self (by positivity)]
  rw [h1]
  have h2 : (d : ℝ) * (d : ℝ) * (maxp : ℝ) / (num : ℝ) =
      ((d * d * maxp : ℕ) : ℝ) / ((num : ℕ) : ℝ) := by push_cast; ring
  rw [h2, natFloor_real_sqrt _ (by positivity), Nat.floor_div_nat,
    Nat.floor_natCast]

/-- Product of two truncated quotients is at most the truncated quotient of
the products. -/
theorem div_mul_div_le (x y n : Nat) (hn : 0 < n) :
    (x / n) * (y / n) ≤ x * y / (n * n) := by
  rw [Nat.le_div_iff_mul_le (Nat.mul_pos hn hn)]
  calc x / n * (y / n) * (n * n) = (x / n * n) * (y / n * n) := by ring
  _ ≤ x * y := Nat.mul_le_mul (Nat.div_mul_le_self x n) (Nat.div_mul_le_self y n)

/-- The resized pixel count never exceeds the ceiling. -/
theorem resize_pixel_bound (w h maxp : Nat) (hover : maxp < w * h) :
    (resize_if_needed w h maxp).1 * (resize_if_needed w h maxp).2 ≤ maxp := by
  have hnum : 0 < w * h := Nat.lt_of_le_of_lt (Nat.zero_le maxp) hover
  have hres : resize_if_needed w h maxp =
      (Nat.sqrt (w * w * maxp / (w * h)), Nat.sqrt (h * h * maxp / (w * h))) := by
    unfold resize_if_needed
    rw [if_pos hover]
  rw [hres]
  set a := w * w * maxp / (w * h) with ha
  set b := h * h * maxp / (w * h) with hb
  have key : Nat.sqrt a * Nat.sqrt b * (Nat.sqrt a * Nat.sqrt b) ≤ maxp * maxp := by
    have h1 : Nat.sqrt a * Nat.sqrt b * (Nat.sqrt a * Nat.sqrt b) =
        (Nat.sqrt a * Nat.sqrt a) * (Nat.sqrt b * Nat.sqrt b) := by ring
    rw [h1]
    calc (Nat.sqrt a * Nat.sqrt a) * (Nat.sqrt b * Nat.sqrt b)
        ≤ a * b := Nat.mul_le_mul (Nat.sqrt_le a) (Nat.sqrt_le b)
    _ ≤ (w * w * maxp) * (h * h * maxp) / ((w * h) * (w * h)) :=
        div_mul_div_le _ _ _ hnum
    _ = maxp * maxp := by
        rw [show (w * w * maxp) * (h * h * maxp) = (maxp * maxp) * ((w * h) * (w * h)) by ring]
        exact Nat.mul_div_cancel (maxp * maxp) (Nat.mul_pos hnum hnum)
  have := Nat.le_sqrt.mpr key
  rwa [Nat.sqrt_eq maxp] at this

/-- The resizer never enlarges a dimension. -/
theorem resize_never_enlarges (w h maxp : Nat) :
    (resize_if_needed w h maxp).1 ≤ w ∧ (resize_if_needed w h maxp).2 ≤ h := by
  unfold resize_if_needed
  by_cases hover : w * h > maxp
  · rw [if_pos hover]
    have hnum : 0 < w * h := Nat.lt_of_le_of_lt (Nat.zero_le maxp) hover
    constructor
    · have h1 : w * w * maxp / (w * h) ≤ w * w := by
        calc w * w * maxp / (w * h) ≤ w * w * (w * h) / (w * h) :=
              Nat.div_le_div_right (Nat.mul_le_mul_left _ (Nat.le_of_lt hover))
        _ = w * w := Nat.mul_div_cancel _ hnum
      have := Nat.sqrt_le_sqrt h1
      rwa [Nat.sqrt_eq w] at this
    · have h1 : h * h * maxp / (w * h) ≤ h * h := by
        calc h * h * maxp / (w * h) ≤ h * h * (w * h) / (w * h) :=
              Nat.div_le_div_right (Nat.mul_le_mul_left _ (Nat.le_of_lt hover))
        _ = h * h := Nat.mul_div_cancel _ hnum
      have := Nat.sqrt_le_sqrt h1
      rwa [Nat.sqrt_eq h] at this
  · rw [if_neg hover]
    exact ⟨Nat.le_refl w, Nat.le_refl h⟩

/-- An image at or under the ceiling is returned unchanged. -/
theorem resize_eq_of_le (w h maxp : Nat) (hle : w * h ≤ maxp) :
    resize_if_needed w h maxp = (w, h) := by
  unfold resize_if_needed
  rw [if_neg (by omega)]

/-- Over the ceiling, each resized dimension is the floor of the original
dimension times `sqrt (ceiling / current_pixels)`. -/
theorem resize_dims_eq_floor (w h maxp : Nat) (hover : maxp < w * h) :
    (resize_if_needed w h maxp).1 =
        ⌊(w : ℝ) * Real.sqrt ((maxp : ℝ) / ((w * h : ℕ) : ℝ))⌋₊
      ∧ (resize_if_needed w h maxp).2 =
        ⌊(h : ℝ) * Real.sqrt ((maxp : ℝ) / ((w * h : ℕ) : ℝ))⌋₊ := by
  have hnum : 0 < w * h := Nat.lt_of_le_of_lt (Nat.zero_le maxp) hover
  constructor
  · rw [natFloor_mul_real_sqrt_div w maxp (w * h) hnum]
    unfold resize_if_needed
    rw [if_pos hover]
  · rw [natFloor_mul_real_sqrt_div h maxp (w * h) hnum]
    unfold resize_if_needed
    rw [if_pos hover]

/-- C1: an image over the pixel ceiling is resized to the floors of its
dimensions scaled by `sqrt (ceiling / current_pixels)`, and the resulting
pixel count is at most the ceiling; an image at or under the ceiling is
returned with both dimensions unchanged. -/
theorem resize_if_needed_correct (w h maxp : Nat) :
    (w * h ≤ maxp → resize_if_needed w h maxp = (w, h))
    ∧ (maxp < w * h →
        ((resize_if_needed w h maxp).1 =
            ⌊(w : ℝ) * Real.sqrt ((maxp : ℝ) / ((w * h : ℕ) : ℝ))⌋₊
          ∧ (resize_if_needed w h maxp).2 =
            ⌊(h : ℝ) * Real.sqrt ((maxp : ℝ) / ((w * h : ℕ) : ℝ))⌋₊)
        ∧ (resize_if_needed w h maxp).1 * (resize_if_needed w h maxp).2 ≤ maxp) := by
  exact ⟨resize_eq_of_le w h maxp,
    fun hover => ⟨resize_dims_eq_floor w h maxp hover, resize_pixel_bound w h maxp hover⟩⟩

/-- Witness for C1: a 800×600 image is under the default ceiling and left
unchanged; a 4000×3000 image is over it and both resized dimensions are
the floors of the originals scaled by the square-root ratio, with the
resized pixel count within the ceiling. -/
theorem resize_if_needed_correct_witness :
    (800 * 600 ≤ 1000000 ∧ resize_if_needed 800 600 1000000 = (800, 600))
    ∧ (1000000 < 4000 * 3000
      ∧ (((resize_if_needed 4000 3000 1000000).1 =
            ⌊(4000 : ℝ) * Real.sqrt ((1000000 : ℝ) / ((4000 * 3000 : ℕ) : ℝ))⌋₊
          ∧ (resize_if_needed 4000 3000 1000000).2 =
            ⌊(3000 : ℝ) * Real.sqrt ((1000000 : ℝ) / ((4000 * 3000 : ℕ) : ℝ))⌋₊)
        ∧ (resize_if_needed 4000 3000 1000000).1 *
            (resize_if_needed 4000 3000 1000000).2 ≤ 1000000)) :=
  ⟨⟨by norm_num, (resize_if_needed_correct 800 600 1000000).1 (by norm_num)⟩,
   ⟨by norm_num, (resize_if_needed_correct 4000 3000 1000000).2 (by norm_num)⟩⟩

/-- C10: the resizer is idempotent on dimensions — a second application
returns its input unchanged — and it never enlarges either dimension. -/
theorem resize_if_needed_idempotent (w h maxp : Nat) :
    resize_if_needed (resize_if_needed w h maxp).1 (resize_if_needed w h maxp).2 maxp
        = resize_if_needed w h maxp
    ∧ (resize_if_needed w h maxp).1 ≤ w ∧ (resize_if_needed w h maxp).2 ≤ h := by
  refine ⟨?_, resize_never_enlarges w h maxp⟩
  have hle : (resize_if_needed w h maxp).1 * (resize_if_needed w h maxp).2 ≤ maxp := by
    by_cases hover : maxp < w * h
    · exact resize_pixel_bound w h maxp hover
    · rw [resize_eq_of_le w h maxp (by omega)]
      exact Nat.le_of_not_lt hover
  rw [resize_eq_of_le _ _ _ hle]

/-- C8: a 4000×3000 image with ceiling 1,000,000 is resized to 1154×866
(the floors of the dimensions scaled by `sqrt (1000000 / 12000000)`), and
for every oversized image both resized dimensions are within one pixel of
the original dimensions scaled by one common positive ratio, so the aspect
ratio is preserved within rounding of one pixel per dimension. -/
theorem resize_scenario_4000_3000 :
    resize_if_needed 4000 3000 1000000 = (1154, 866)
    ∧ (∀ w h maxp : Nat, 0 < maxp → maxp < w * h →
        ∃ r : ℝ, 0 < r
          ∧ ((resize_if_needed w h maxp).1 : ℝ) ≤ (w : ℝ) * r
          ∧ (w : ℝ) * r - 1 < ((resize_if_needed w h maxp).1 : ℝ)
          ∧ ((resize_if_needed w h maxp).2 : ℝ) ≤ (h : ℝ) * r
          ∧ (h : ℝ) * r - 1 < ((resize_if_needed w h maxp).2 : ℝ)) := by
  constructor
  · unfold resize_if_needed
    rw [if_pos (by norm_num)]
    have h1 : Nat.sqrt (4000 * 4000 * 1000000 / (4000 * 3000)) = 1154 := by
      have e1 : (4000 * 4000 * 1000000 / (4000 * 3000) : Nat) = 1333333 := by norm_num
      rw [e1]
      symm
      rw [Nat.eq_sqrt]
      constructor <;> norm_num
    have h2 : Nat.sqrt (3000 * 3000 * 1000000 / (4000 * 3000)) = 866 := by
      have e2 : (3000 * 3000 * 1000000 / (4000 * 3000) : Nat) = 750000 := by norm_num
      rw [e2]
      symm
      rw [Nat.eq_sqrt]
      constructor <;> norm_num
    rw [h1, h2]
  · intro w h maxp hm hover
    obtain ⟨e1, e2⟩ := resize_dims_eq_floor w h maxp hover
    have hnum : (0 : ℝ) < ((w * h : ℕ) : ℝ) := by
      exact_mod_cast Nat.lt_of_le_of_lt (Nat.zero_le maxp) hover
    have hmr : (0 : ℝ) < (maxp : ℝ) := by exact_mod_cast hm
    refine ⟨Real.sqrt ((maxp : ℝ) / ((w * h : ℕ) : ℝ)), ?_, ?_, ?_, ?_, ?_⟩
    · exact Real.sqrt_pos.mpr (div_pos hmr hnum)
    · rw [e1]
      exact Nat.floor_le (by positivity)
    · rw [e1]
      have := Nat.lt_floor_add_one ((w : ℝ) * Real.sqrt ((maxp : ℝ) / ((w * h : ℕ) : ℝ)))
      linarith
    · rw [e2]
      exact Nat.floor_le (by positivity)
    · rw [e2]
      have := Nat.lt_floor_add_one ((h : ℝ) * Real.sqrt ((maxp : ℝ) / ((w * h : ℕ) : ℝ)))
      linarith

/-- Witness for C8: the aspect-ratio bound instantiated at the concrete
4000×3000 scenario with ceiling 1,000,000. -/
theorem resize_scenario_4000_3000_witness :
    0 < 1000000 ∧ 1000000 < 4000 * 3000
    ∧ (∃ r : ℝ, 0 < r
        ∧ ((resize_if_needed 4000 3000 1000000).1 : ℝ) ≤ (4000 : ℝ) * r
        ∧ (4000 : ℝ) * r - 1 < ((resize_if_needed 4000 3000 1000000).1 : ℝ)
        ∧ ((resize_if_needed 4000 3000 1000000).2 : ℝ) ≤ (3000 : ℝ) * r
        ∧ (3000 : ℝ) * r - 1 < ((resize_if_needed 4000 3000 1000000).2 : ℝ)) :=
  ⟨by norm_num, by norm_num,
    resize_scenario_4000_3000.2 4000 3000 1000000 (by norm_num) (by norm_num)⟩

/-- The `advanced_params` dictionary built in `app.py` and consumed by
`utils.process_image` / `utils.apply_fine_tuning`: the four fine-tuning
factors (floats modelled as rationals, neutral at 1.0), the
face-enhance flag, the denoise level, the output format string and the
JPEG quality (`none` models a missing key). -/
structure Params where
  face_enhance : Bool
  denoise_level : Nat
  output_format : Option String
  jpeg_quality : Option Nat
  sharpness : ℚ
  contrast : ℚ
  brightness : ℚ
  color_balance : ℚ
  deriving DecidableEq, Repr

/-- Shape of the value returned by the remote `client.run` call, as
discriminated by `utils.process_image`: an object exposing a `url`
attribute, a Python list, a bare string, or any other value. -/
inductive RemoteOutput where
  | withUrl (url : String)
  | strList (xs : List String)
  | plain (s : String)
  | other (descr : String)
  deriving DecidableEq, Repr

/-- External collaborators of the pipeline, abstracted as oracles: the
`REPLICATE_API_TOKEN` environment variable, whether the Replicate client
constructor succeeds, the value returned by `client.run`
(`Except.error` modelling a raised `ReplicateError`), the
`urlopen`/`Image.open` download (`none` modelling a raised exception),
and the pixel-payload transforms of the PIL `resize`, `convert(RGB)`,
JPEG re-encode and the four `ImageEnhance` enhancers (`Except.error`
modelling a raised exception inside `enhance`). -/
structure Env where
  replicate_token : Option String
  clientOk : Bool
  runOutput : Except String RemoteOutput
  fetch : String → Option Img
  resample : Img → Nat → Nat → List Nat
  convData : Img → List Nat
  jpegData : Img → Nat → List Nat
  sharpE : Img → ℚ → Except String Img
  contrastE : Img → ℚ → Except String Img
  brightE : Img → ℚ → Except String Img
  colorE : Img → ℚ → Except String Img

/-- The Python check `token.startswith(r8_)` from `utils.load_model`. -/
def tokenFormatOk (t : String) : Bool :=
  t.data.take 3 = ['r', '8', '_']

def msgTokenMissing : String := "Token de Replicate no encontrado"

def msgTokenFormat : String :=
  "El formato del token no es valido. Debe comenzar con r8_"

def msgClientConnect : String := "Error al conectar con Replicate"

def msgClientInit : String := "No se pudo inicializar el cliente de Replicate"

def msgTooLarge : String := "La imagen es demasiado grande para ser procesada."

def msgApiError : String := "Error al procesar la imagen"

def msgUnexpected : String := "Error: Formato de respuesta inesperado del modelo"

def msgResponseFail : String := "Error al procesar la respuesta del modelo"

/-- `utils.load_model`: checks that the `REPLICATE_API_TOKEN` environment
variable is present, non-empty (Python truthiness of `not token`) and
starts with `r8_`, then constructs the Replicate client.  Returns whether
a client is available together with the error messages shown. -/
def load_model (env : Env) : Bool × List String :=
  match env.replicate_token with
  | none => (false, [msgTokenMissing])
  | some t =>
    if t = "" then (false, [msgTokenMissing])
    else if !tokenFormatOk t then (false, [msgTokenFormat])
    else if env.clientOk then (true, []) else (false, [msgClientConnect])

/-- The PIL call `image.convert(RGB)`: dimensions preserved, mode set to RGB,
pixel payload given by the conversion oracle. -/
def convRGB (env : Env) (i : Img) : Img :=
  { width := i.width, height := i.height, mode := Mode.RGB,
    data := env.convData i }

/-- The head of `utils.apply_fine_tuning`:
`if image.mode != RGB: image = image.convert(RGB)`. -/
def rgbInput (env : Env) (i : Img) : Img :=
  if i.mode ≠ Mode.RGB then convRGB env i else i

/-- One conditional enhancement step of `utils.apply_fine_tuning`:
the enhancer is invoked only when its factor differs from the neutral
1.0, otherwise the image passes through untouched. -/
def condEnhance (e : Img → ℚ → Except String Img) (factor : ℚ) (i : Img) :
    Except String Img :=
  if factor ≠ 1 then e i factor else Except.ok i

/-- `utils.apply_fine_tuning`: convert to RGB if needed, then apply the
sharpness, contrast, brightness and color-balance enhancers in that
order, each skipped when its factor is 1.0.  The whole body runs inside
`try/except` with the local `image` rebound after every step, so a raised
exception returns the image from the last successful step. -/
def apply_fine_tuning (env : Env) (img : Img) (p : Params) : Img :=
  match condEnhance env.sharpE p.sharpness (rgbInput env img) with
  | Except.error _ => rgbInput env img
  | Except.ok i2 =>
    match condEnhance env.contrastE p.contrast i2 with
    | Except.error _ => i2
    | Except.ok i3 =>
      match condEnhance env.brightE p.brightness i3 with
      | Except.error _ => i3
      | Except.ok i4 =>
        match condEnhance env.colorE p.color_balance i4 with
        | Except.error _ => i4
        | Except.ok i5 => i5

/-- The fine-tuning chain as the spec words it: sharpness → contrast →
brightness → color-balance in this fixed order, skipping any step whose
factor equals 1.0, failures propagating. -/
def fineTuneChain (env : Env) (p : Params) (i : Img) : Except String Img :=
  match condEnhance env.sharpE p.sharpness i with
  | Except.error e => Except.error e
  | Except.ok i2 =>
    match condEnhance env.contrastE p.contrast i2 with
    | Except.error e => Except.error e
    | Except.ok i3 =>
      match condEnhance env.brightE p.brightness i3 with
      | Except.error e => Except.error e
      | Except.ok i4 => condEnhance env.colorE p.color_balance i4

/-- `utils.resize_if_needed` on full images: dimensions from
`resize_if_needed`, mode preserved, pixel payload from the LANCZOS
resampling oracle. -/
def resize_img (env : Env) (i : Img) (maxp : Nat) : Img :=
  if i.width * i.height > maxp then
    { width := (resize_if_needed i.width i.height maxp).1,
      height := (resize_if_needed i.width i.height maxp).2,
      mode := i.mode,
      data := env.resample i (resize_if_needed i.width i.height maxp).1
        (resize_if_needed i.width i.height maxp).2 }
  else i

/-- The Python `str.upper()` method restricted to the ASCII strings the pipeline
compares (`png`, `jpeg`). -/
def strUpper (s : String) : String :=
  String.mk (s.data.map Char.toUpper)

/-- PIL JPEG `save`-then-`open` round trip at a given quality: dimensions
and mode preserved, pixel payload given by the lossy codec oracle. -/
def jpegRoundtrip (env : Env) (i : Img) (quality : Nat) : Img :=
  { width := i.width, height := i.height, mode := i.mode,
    data := env.jpegData i quality }

/-- The output-encoding tail of `utils.process_image`: when
`advanced_params` carries a truthy `output_format` whose upper-case form
is `JPEG`, an RGBA or LA image is converted to RGB and the image is
re-encoded as JPEG at `jpeg_quality` (default 95); otherwise the image is
returned as is. -/
def encodeOutput (env : Env) (advanced : Option Params) (i : Img) : Img :=
  match advanced with
  | none => i
  | some p =>
    match p.output_format with
    | none => i
    | some f =>
      if f = "" then i
      else if strUpper f = "JPEG" then
        jpegRoundtrip env
          (if i.mode = Mode.RGBA ∨ i.mode = Mode.LA then convRGB env i else i)
          (p.jpeg_quality.getD 95)
      else i

/-- Outcome of `utils.process_image`: the returned image (`none` for the
`return None` paths), the error messages shown, and whether the remote
`client.run` call was reached. -/
structure ProcResult where
  result : Option Img
  errors : List String
  remoteCalled : Bool
  deriving DecidableEq, Repr

/-- URL extraction from the remote result in `utils.process_image`:
`hasattr(output, url)`, then non-empty list, then bare string; every
other shape yields no URL. -/
def extract_url : RemoteOutput → Option String
  | RemoteOutput.withUrl u => some u
  | RemoteOutput.strList [] => none
  | RemoteOutput.strList (x :: _) => some x
  | RemoteOutput.plain s => some s
  | RemoteOutput.other _ => none

/-- The description the spec gives of an acceptable remote result: an object
exposing a URL, a non-empty ordered sequence, or a bare URL string. -/
def goodShape : RemoteOutput → Prop
  | RemoteOutput.withUrl _ => True
  | RemoteOutput.strList xs => xs ≠ []
  | RemoteOutput.plain _ => True
  | RemoteOutput.other _ => False

/-- `utils.process_image`: client check, resize, post-scale pixel-budget
check, remote call, URL extraction, download, fine tuning and output
encoding, every failure caught and turned into a `none` result. -/
def process_image (env : Env) (img : Img) (scale : Nat)
    (advanced : Option Params) : ProcResult :=
  match load_model env with
  | (false, es) =>
    { result := none, errors := es ++ [msgClientInit], remoteCalled := false }
  | (true, _) =>
    if (resize_img env img 1000000).width * (resize_img env img 1000000).height
        * scale * scale > 1000000 then
      { result := none, errors := [msgTooLarge], remoteCalled := false }
    else
      match env.runOutput with
      | Except.error e =>
        { result := none, errors := [msgApiError ++ ": " ++ e], remoteCalled := true }
      | Except.ok out =>
        match extract_url out with
        | none =>
          { result := none, errors := [msgUnexpected], remoteCalled := true }
        | some url =>
          match env.fetch url with
          | none =>
            { result := none, errors := [msgResponseFail], remoteCalled := true }
          | some rimg =>
            { result := some (encodeOutput env advanced
                (match advanced with
                 | some p => apply_fine_tuning env rimg p
                 | none => rimg)),
              errors := [], remoteCalled := true }

/-- Why `app.check_token` denied (or did not decide) access: missing
server-side secret versus a wrong user guess. -/
inductive GateError where
  | noConfig
  | wrongToken
  deriving DecidableEq, Repr

/-- `app.check_token`: compares session state or the freshly entered
token against the `APP_ACCESS_TOKEN` environment secret.  Arguments are
the configured secret, the token stored in session state (empty string
when absent), whether the verify button was pressed, and the text-input
value.  Returns the granted/denied flag and the error shown. -/
def check_token (secret : Option String) (session_token : String)
    (button : Bool) (token_input : String) : Bool × Option GateError :=
  match secret with
  | none => (false, some GateError.noConfig)
  | some s =>
    if s = "" then (false, some GateError.noConfig)
    else if session_token = "" then
      if button then
        if token_input = s then (true, none) else (false, some GateError.wrongToken)
      else (false, none)
    else (decide (session_token = s), none)

/-- C3: when every fine-tuning factor is the neutral 1.0 the filter chain
returns exactly the RGB-converted input with no enhancement applied, and
whenever the ordered chain of the spec (sharpness → contrast → brightness →
color balance, skipping factors equal to 1.0) succeeds with value `v`,
`apply_fine_tuning` returns that `v`. -/
theorem apply_fine_tuning_spec (env : Env) (img : Img) (p : Params) :
    ((p.sharpness = 1 ∧ p.contrast = 1 ∧ p.brightness = 1 ∧ p.color_balance = 1) →
      apply_fine_tuning env img p = rgbInput env img)
    ∧ (∀ v, fineTuneChain env p (rgbInput env img) = Except.ok v →
        apply_fine_tuning env img p = v) := by
  constructor
  · rintro ⟨h1, h2, h3, h4⟩
    unfold apply_fine_tuning condEnhance
    simp [h1, h2, h3, h4]
  · intro v hv
    unfold fineTuneChain at hv
    unfold apply_fine_tuning
    cases hs : condEnhance env.sharpE p.sharpness (rgbInput env img) with
    | error e => simp [hs] at hv
    | ok i2 =>
      simp only [hs] at hv ⊢
      cases hc : condEnhance env.contrastE p.contrast i2 with
      | error e => simp [hc] at hv
      | ok i3 =>
        simp only [hc] at hv ⊢
        cases hb : condEnhance env.brightE p.brightness i3 with
        | error e => simp [hb] at hv
        | ok i4 =>
          simp only [hb] at hv ⊢
          simp [hv]

/-- Sample environment whose sharpness enhancer raises, the other three
succeeding unchanged. -/
def enhanceFailEnv : Env :=
  { replicate_token := some "r8_token",
    clientOk := true,
    runOutput := Except.ok (RemoteOutput.plain "http:u"),
    fetch := fun _ => none,
    resample := fun i _ _ => i.data,
    convData := fun i => i.data,
    jpegData := fun i _ => i.data,
    sharpE := fun _ _ => Except.error "sharpness enhancer raised",
    contrastE := fun i _ => Except.ok i,
    brightE := fun i _ => Except.ok i,
    colorE := fun i _ => Except.ok i }

/-- A 2×2 RGBA sample image. -/
def rgbaSample : Img :=
  { width := 2, height := 2, mode := Mode.RGBA, data := [7] }

/-- Parameters requesting only a sharpness adjustment (factor 2). -/
def sharpOnlyParams : Params :=
  { face_enhance := true, denoise_level := 1, output_format := none,
    jpeg_quality := none, sharpness := 2, contrast := 1, brightness := 1,
    color_balance := 1 }

/-- Counterexample to C4 as stated: on an RGBA input the conversion to
RGB succeeds and is bound to the local `image`, then the sharpness
enhancer raises; the `except` clause returns the rebound local, so the
function returns the RGB-converted image, not the image it was given. -/
theorem apply_fine_tuning_failure_not_input :
    (enhanceFailEnv.sharpE (rgbInput enhanceFailEnv rgbaSample)
        sharpOnlyParams.sharpness = Except.error "sharpness enhancer raised")
    ∧ apply_fine_tuning enhanceFailEnv rgbaSample sharpOnlyParams ≠ rgbaSample := by
  constructor
  · rfl
  · decide

/-- C4 (amended): on an internal failure `apply_fine_tuning` returns the
image produced by the last successful step — the RGB-converted input when
the first attempted enhancement raises, and the partially enhanced
intermediate image when a later one does. -/
theorem apply_fine_tuning_on_failure (env : Env) (img : Img) (p : Params) :
    (∀ e, condEnhance env.sharpE p.sharpness (rgbInput env img) = Except.error e →
      apply_fine_tuning env img p = rgbInput env img)
    ∧ (∀ i2 e, condEnhance env.sharpE p.sharpness (rgbInput env img) = Except.ok i2 →
        condEnhance env.contrastE p.contrast i2 = Except.error e →
        apply_fine_tuning env img p = i2)
    ∧ (∀ i2 i3 e,
        condEnhance env.sharpE p.sharpness (rgbInput env img) = Except.ok i2 →
        condEnhance env.contrastE p.contrast i2 = Except.ok i3 →
        condEnhance env.brightE p.brightness i3 = Except.error e →
        apply_fine_tuning env img p = i3)
    ∧ (∀ i2 i3 i4 e,
        condEnhance env.sharpE p.sharpness (rgbInput env img) = Except.ok i2 →
        condEnhance env.contrastE p.contrast i2 = Except.ok i3 →
        condEnhance env.brightE p.brightness i3 = Except.ok i4 →
        condEnhance env.colorE p.color_balance i4 = Except.error e →
        apply_fine_tuning env img p = i4) := by
  refine ⟨?_, ?_, ?_, ?_⟩
  · intro e he
    unfold apply_fine_tuning
    rw [he]
  · intro i2 e h2 he
    unfold apply_fine_tuning
    simp only [h2, he]
  · intro i2 i3 e h2 h3 he
    unfold apply_fine_tuning
    simp only [h2, h3, he]
  · intro i2 i3 i4 e h2 h3 h4 he
    unfold apply_fine_tuning
    simp only [h2, h3, h4, he]

/-- Witness for the amended C4: with the raising sharpness enhancer the
function returns the RGB-converted input. -/
theorem apply_fine_tuning_on_failure_witness :
    condEnhance enhanceFailEnv.sharpE sharpOnlyParams.sharpness
        (rgbInput enhanceFailEnv rgbaSample)
      = Except.error "sharpness enhancer raised"
    ∧ apply_fine_tuning enhanceFailEnv rgbaSample sharpOnlyParams
      = rgbInput enhanceFailEnv rgbaSample :=
  ⟨rfl,
    (apply_fine_tuning_on_failure enhanceFailEnv rgbaSample sharpOnlyParams).1
      "sharpness enhancer raised" rfl⟩

/-- Sample environment where every external call succeeds. -/
def okEnv : Env :=
  { replicate_token := some "r8_abc",
    clientOk := true,
    runOutput := Except.ok (RemoteOutput.plain "http:u"),
    fetch := fun _ => some { width := 1, height := 1, mode := Mode.RGB, data := [] },
    resample := fun i _ _ => i.data,
    convData := fun i => i.data,
    jpegData := fun i _ => i.data,
    sharpE := fun i _ => Except.ok i,
    contrastE := fun i _ => Except.ok i,
    brightE := fun i _ => Except.ok i,
    colorE := fun i _ => Except.ok i }

/-- Parameters with every fine-tuning factor neutral. -/
def neutralParams : Params :=
  { face_enhance := true, denoise_level := 1, output_format := none,
    jpeg_quality := none, sharpness := 1, contrast := 1, brightness := 1,
    color_balance := 1 }

/-- Witness for C3: with every factor at 1.0 the chain returns the
RGB-converted input. -/
theorem apply_fine_tuning_spec_witness :
    (neutralParams.sharpness = 1 ∧ neutralParams.contrast = 1
      ∧ neutralParams.brightness = 1 ∧ neutralParams.color_balance = 1)
    ∧ apply_fine_tuning okEnv rgbaSample neutralParams = rgbInput okEnv rgbaSample :=
  ⟨⟨rfl, rfl, rfl, rfl⟩,
    (apply_fine_tuning_spec okEnv rgbaSample neutralParams).1 ⟨rfl, rfl, rfl, rfl⟩⟩

/-- C2: when the (possibly resized) image times the squared scale factor
exceeds the 1,000,000 pixel ceiling, `process_image` returns a null
result with an error message and the remote call is never issued. -/
theorem process_image_size_guard (env : Env) (img : Img) (scale : Nat)
    (advanced : Option Params) :
    (resize_img env img 1000000).width * (resize_img env img 1000000).height
        * scale * scale > 1000000 →
    (process_image env img scale advanced).result = none
    ∧ (process_image env img scale advanced).remoteCalled = false
    ∧ (process_image env img scale advanced).errors ≠ [] := by
  intro htoo
  unfold process_image
  cases hl : load_model env with
  | mk b es =>
    cases b with
    | false => simp
    | true =>
      rw [if_pos htoo]
      simp

/-- A 700×700 RGB sample image. -/
def img700 : Img :=
  { width := 700, height := 700, mode := Mode.RGB, data := [] }

/-- Witness for C2: a 700×700 image at scale factor 3 gives
700·700·3·3 = 4,410,000 > 1,000,000 and is rejected before the remote
call even though the client environment is fully functional. -/
theorem process_image_size_guard_witness :
    (resize_img okEnv img700 1000000).width * (resize_img okEnv img700 1000000).height
        * 3 * 3 > 1000000
    ∧ ((process_image okEnv img700 3 none).result = none
      ∧ (process_image okEnv img700 3 none).remoteCalled = false
      ∧ (process_image okEnv img700 3 none).errors ≠ []) :=
  ⟨by decide, process_image_size_guard okEnv img700 3 none (by decide)⟩

/-- C5: when the `REPLICATE_API_TOKEN` credential is absent or does not
start with `r8_`, `process_image` returns a null result with the
configuration-error message and never reaches the remote call. -/
theorem process_image_config_guard (env : Env) (img : Img) (scale : Nat)
    (advanced : Option Params) :
    (env.replicate_token = none
      ∨ ∀ t, env.replicate_token = some t → tokenFormatOk t = false) →
    (process_image env img scale advanced).result = none
    ∧ (process_image env img scale advanced).remoteCalled = false
    ∧ msgClientInit ∈ (process_image env img scale advanced).errors := by
  intro hcfg
  have hl : (load_model env).1 = false := by
    unfold load_model
    cases ht : env.replicate_token with
    | none => rfl
    | some t =>
      rcases hcfg with hnone | hbad
      · rw [ht] at hnone
        exact absurd hnone (by simp)
      · have hform := hbad t ht
        by_cases he : t = ""
        · simp [he]
        · simp [he, hform]
  unfold process_image
  cases hle : load_model env with
  | mk b es =>
    rw [hle] at hl
    simp at hl
    subst hl
    simp

/-- Environment with no Replicate credential configured. -/
def noTokenEnv : Env :=
  { okEnv with replicate_token := none }

/-- Witness for C5: with the credential unset the pipeline returns a null
result, shows the configuration error and performs no remote call. -/
theorem process_image_config_guard_witness :
    (noTokenEnv.replicate_token = none
      ∨ ∀ t, noTokenEnv.replicate_token = some t → tokenFormatOk t = false)
    ∧ ((process_image noTokenEnv img700 2 none).result = none
      ∧ (process_image noTokenEnv img700 2 none).remoteCalled = false
      ∧ msgClientInit ∈ (process_image noTokenEnv img700 2 none).errors) :=
  ⟨Or.inl rfl, process_image_config_guard noTokenEnv img700 2 none (Or.inl rfl)⟩

/-- C6: the URL extraction succeeds exactly on the three accepted result
shapes (an object exposing a `url` attribute, a non-empty list, a bare
string), and on any other shape — the empty list included —
`process_image` reports the unexpected-response error and returns a null
result. -/
theorem process_image_output_shape (o : RemoteOutput) :
    ((extract_url o).isSome = true ↔ goodShape o)
    ∧ (∀ (env : Env) (img : Img) (scale : Nat) (advanced : Option Params),
        (load_model env).1 = true →
        ¬((resize_img env img 1000000).width * (resize_img env img 1000000).height
            * scale * scale > 1000000) →
        env.runOutput = Except.ok o →
        extract_url o = none →
        (process_image env img scale advanced).result = none
        ∧ (process_image env img scale advanced).remoteCalled = true
        ∧ msgUnexpected ∈ (process_image env img scale advanced).errors) := by
  constructor
  · cases o with
    | withUrl u => simp [extract_url, goodShape]
    | strList xs => cases xs <;> simp [extract_url, goodShape]
    | plain s => simp [extract_url, goodShape]
    | other d => simp [extract_url, goodShape]
  · intro env img scale advanced hload hsize hrun hext
    unfold process_image
    cases hle : load_model env with
    | mk b es =>
      rw [hle] at hload
      simp at hload
      subst hload
      rw [if_neg hsize, hrun]
      simp [hext]

/-- Environment whose remote call returns an unrecognised value. -/
def dictOutputEnv : Env :=
  { okEnv with runOutput := Except.ok (RemoteOutput.other "dict") }

/-- Witness for C6: a result of unrecognised shape makes the pipeline
return a null result with the unexpected-response error after the remote
call. -/
theorem process_image_output_shape_witness :
    (load_model dictOutputEnv).1 = true
    ∧ ¬((resize_img dictOutputEnv img700 1000000).width
          * (resize_img dictOutputEnv img700 1000000).height * 1 * 1 > 1000000)
    ∧ dictOutputEnv.runOutput = Except.ok (RemoteOutput.other "dict")
    ∧ extract_url (RemoteOutput.other "dict") = none
    ∧ ((process_image dictOutputEnv img700 1 none).result = none
      ∧ (process_image dictOutputEnv img700 1 none).remoteCalled = true
      ∧ msgUnexpected ∈ (process_image dictOutputEnv img700 1 none).errors) :=
  ⟨by decide, by decide, rfl, rfl,
    (process_image_output_shape (RemoteOutput.other "dict")).2 dictOutputEnv img700 1 none
      (by decide) (by decide) rfl rfl⟩

/-- C7: when JPEG output is requested, an alpha-bearing (RGBA or LA)
image is converted to RGB and the image is re-encoded at the requested
quality (default 95); the re-decoded image keeps the pre-encode
dimensions, and an alpha-bearing input comes back in RGB mode.  When the
requested format does not upper-case to JPEG (PNG in particular), no
re-encoding is performed and the image is returned untouched. -/
theorem encodeOutput_spec (env : Env) (p : Params) (i : Img) :
    (∀ f, p.output_format = some f → f ≠ "" → strUpper f = "JPEG" →
      encodeOutput env (some p) i =
        jpegRoundtrip env
          (if i.mode = Mode.RGBA ∨ i.mode = Mode.LA then convRGB env i else i)
          (p.jpeg_quality.getD 95)
      ∧ (encodeOutput env (some p) i).width = i.width
      ∧ (encodeOutput env (some p) i).height = i.height
      ∧ ((i.mode = Mode.RGBA ∨ i.mode = Mode.LA) →
          (encodeOutput env (some p) i).mode = Mode.RGB))
    ∧ (∀ f, p.output_format = some f → strUpper f ≠ "JPEG" →
        encodeOutput env (some p) i = i) := by
  constructor
  · intro f hf hne hup
    have hrw : encodeOutput env (some p) i =
        jpegRoundtrip env
          (if i.mode = Mode.RGBA ∨ i.mode = Mode.LA then convRGB env i else i)
          (p.jpeg_quality.getD 95) := by
      simp only [encodeOutput, hf]
      rw [if_neg hne, if_pos hup]
    refine ⟨hrw, ?_, ?_, ?_⟩
    · rw [hrw]
      by_cases hm : i.mode = Mode.RGBA ∨ i.mode = Mode.LA <;>
        simp [jpegRoundtrip, convRGB, hm]
    · rw [hrw]
      by_cases hm : i.mode = Mode.RGBA ∨ i.mode = Mode.LA <;>
        simp [jpegRoundtrip, convRGB, hm]
    · intro hm
      rw [hrw]
      simp [jpegRoundtrip, convRGB, hm]
  · intro f hf hup
    simp only [encodeOutput, hf]
    by_cases he : f = ""
    · rw [if_pos he]
    · rw [if_neg he, if_neg hup]

/-- Parameters requesting JPEG output at quality 95. -/
def jpegParams : Params :=
  { face_enhance := true, denoise_level := 1, output_format := some "jpeg",
    jpeg_quality := some 95, sharpness := 1, contrast := 1, brightness := 1,
    color_balance := 1 }

/-- Witness for C7: JPEG at quality 95 on the RGBA sample drops the
alpha (result mode RGB) and keeps the dimensions. -/
theorem encodeOutput_spec_witness :
    (jpegParams.output_format = some "jpeg" ∧ "jpeg" ≠ ""
      ∧ strUpper "jpeg" = "JPEG")
    ∧ (encodeOutput okEnv (some jpegParams) rgbaSample =
        jpegRoundtrip okEnv
          (if rgbaSample.mode = Mode.RGBA ∨ rgbaSample.mode = Mode.LA then
            convRGB okEnv rgbaSample else rgbaSample)
          (jpegParams.jpeg_quality.getD 95)
      ∧ (encodeOutput okEnv (some jpegParams) rgbaSample).width = rgbaSample.width
      ∧ (encodeOutput okEnv (some jpegParams) rgbaSample).height = rgbaSample.height
      ∧ ((rgbaSample.mode = Mode.RGBA ∨ rgbaSample.mode = Mode.LA) →
          (encodeOutput okEnv (some jpegParams) rgbaSample).mode = Mode.RGB)) :=
  ⟨⟨rfl, by decide, by decide⟩,
    (encodeOutput_spec okEnv jpegParams rgbaSample).1 "jpeg" rfl (by decide) (by decide)⟩

/-- C9: `check_token` grants access only when the user-supplied token
(the fresh text input on the button path, the stored session token
otherwise) equals the configured `APP_ACCESS_TOKEN` secret; a missing or
empty secret always denies with the server-misconfiguration error, which
is distinct from the wrong-guess error a non-matching input receives. -/
theorem check_token_spec (secret : Option String) (st : String) (b : Bool)
    (ti : String) :
    ((check_token secret st b ti).1 = true →
      ∃ s, secret = some s ∧ s ≠ ""
        ∧ ((st = "" ∧ b = true ∧ ti = s) ∨ (st ≠ "" ∧ st = s)))
    ∧ ((secret = none ∨ secret = some "") →
        check_token secret st b ti = (false, some GateError.noConfig))
    ∧ (∀ s, secret = some s → s ≠ "" → st = "" → b = true → ti ≠ s →
        check_token secret st b ti = (false, some GateError.wrongToken)) := by
  refine ⟨?_, ?_, ?_⟩
  · intro hgrant
    cases hsec : secret with
    | none => rw [hsec] at hgrant; simp [check_token] at hgrant
    | some s =>
      rw [hsec] at hgrant
      simp only [check_token] at hgrant
      by_cases hs : s = ""
      · rw [if_pos hs] at hgrant
        simp at hgrant
      · rw [if_neg hs] at hgrant
        by_cases hst : st = ""
        · rw [if_pos hst] at hgrant
          cases b with
          | false => simp at hgrant
          | true =>
            by_cases hti : ti = s
            · exact ⟨s, rfl, hs, Or.inl ⟨hst, rfl, hti⟩⟩
            · simp [hti] at hgrant
        · rw [if_neg hst] at hgrant
          simp at hgrant
          exact ⟨s, rfl, hs, Or.inr ⟨hst, hgrant⟩⟩
  · intro hmiss
    rcases hmiss with hnone | hempty
    · rw [hnone]
      rfl
    · rw [hempty]
      simp [check_token]
  · intro s hs hne hst hb hti
    subst hs
    subst hb
    simp only [check_token]
    rw [if_neg hne, if_pos hst]
    simp [hti]

/-- Witness for C9: granting access forces the supplied token to equal
the configured secret. -/
theorem check_token_spec_witness :
    (check_token (some "abc") "" true "abc").1 = true
    ∧ (∃ s, (some "abc" : Option String) = some s ∧ s ≠ ""
        ∧ ((("" : String) = "" ∧ true = true ∧ "abc" = s)
          ∨ (("" : String) ≠ "" ∧ "" = s))) :=
  ⟨by decide, (check_token_spec (some "abc") "" true "abc").1 (by decide)⟩

end ImageUpscaler
